import Mathlib

/-!
Verification of the render-surface and auto-scaling engine of `webview-rs`.

The core component (RenderSurface + ScalingEngine + PixelRenderer facade)
is a native library; the repository ships its TypeScript callers, examples
and stress tests.  The definitions below embed that core, modelled from the
specification document, and the theorems settle the specified properties.
-/

namespace WebviewRs

/-- Scale modes of the auto-scaling engine; mirrors the TypeScript
`ScaleMode` enum with variants Fit, Fill, Stretch, Integer, None. -/
inductive ScaleMode where
  | Fit
  | Fill
  | Stretch
  | Integer
  | None
deriving DecidableEq

/-- Axis-aligned rectangle with rational coordinates, used for the
destination and clip rectangles of a Transform. -/
structure Rect where
  x : ℚ
  y : ℚ
  w : ℚ
  h : ℚ
deriving DecidableEq

/-- Modelled from the spec: the derived `Transform` produced by the
ScalingEngine — destination rectangle, uniform scale factor (`Option.none`
when no single uniform factor exists, as in Stretch mode), and the clip
rectangle bounding the drawable window area. -/
structure Transform where
  destRect : Rect
  scaleFactor : Option ℚ
  clipRect : Rect
deriving DecidableEq

/-- Rectangle of size `w × h` centered inside a window of size `ww × wh`. -/
def centeredRect (w h ww wh : ℚ) : Rect :=
  ⟨(ww - w) / 2, (wh - h) / 2, w, h⟩

/-- The full-window rectangle `{0, 0, ww, wh}`. -/
def winRect (ww wh : ℚ) : Rect :=
  ⟨0, 0, ww, wh⟩

/-- Intersection of two rectangles (used for cropping a destination that
exceeds the window bounds). -/
def intersectRect (r s : Rect) : Rect :=
  let x1 := max r.x s.x
  let y1 := max r.y s.y
  let x2 := min (r.x + r.w) (s.x + s.w)
  let y2 := min (r.y + r.h) (s.y + s.h)
  ⟨x1, y1, x2 - x1, y2 - y1⟩

/-- Modelled from the spec: the ScalingEngine, a pure function from the
logical buffer size `(bw, bh)`, the physical window size `(ww, wh)`, the
configured mode and the auto-scale flag to an optional `Transform`.
`Option.none` means no-render (skip the frame): any dimension `≤ 0`.
When auto-scale is disabled the engine behaves as mode None regardless of
the configured mode.  The five modes follow §4.3 of the specification. -/
def computeTransform (mode : ScaleMode) (autoScale : Bool)
    (bw bh ww wh : ℤ) : Option Transform :=
  if bw ≤ 0 ∨ bh ≤ 0 ∨ ww ≤ 0 ∨ wh ≤ 0 then
    Option.none
  else
    let bwq : ℚ := (bw : ℚ)
    let bhq : ℚ := (bh : ℚ)
    let wwq : ℚ := (ww : ℚ)
    let whq : ℚ := (wh : ℚ)
    let clip := winRect wwq whq
    match (if autoScale then mode else ScaleMode.None) with
    | ScaleMode.None =>
        some ⟨centeredRect bwq bhq wwq whq, some 1, clip⟩
    | ScaleMode.Stretch =>
        some ⟨⟨0, 0, wwq, whq⟩, Option.none, clip⟩
    | ScaleMode.Fit =>
        let f := min (wwq / bwq) (whq / bhq)
        some ⟨centeredRect (bwq * f) (bhq * f) wwq whq, some f, clip⟩
    | ScaleMode.Fill =>
        let f := max (wwq / bwq) (whq / bhq)
        some ⟨centeredRect (bwq * f) (bhq * f) wwq whq, some f, clip⟩
    | ScaleMode.Integer =>
        let k : ℤ := max 1 (Int.floor (min (wwq / bwq) (whq / bhq)))
        some ⟨centeredRect (bwq * (k : ℚ)) (bhq * (k : ℚ)) wwq whq,
              some (k : ℚ), clip⟩

/-- Render options of the PixelRenderer facade; mirrors the TypeScript
`RenderOptions` value object: logical buffer dimensions, scale mode and
background color (RGBA, one byte per channel). -/
structure RenderOptions where
  bufferWidth : ℕ
  bufferHeight : ℕ
  scaleMode : ScaleMode
  backgroundColor : ℕ × ℕ × ℕ × ℕ
deriving DecidableEq

/-- Modelled from the spec: the PixelRenderer / WindowSurface facade — a
value holding its configuration and the auto-scale flag.  It binds no
window and holds no presentation resource; the target window is an
argument of each render call. -/
structure PixelRenderer where
  options : RenderOptions
  autoScaleEnabled : Bool
deriving DecidableEq

/-- Modelled from the spec: `PixelRenderer.withOptions` constructs a
facade from options, with auto-scaling enabled by default.  Construction
is pure: it touches no surface arena and performs no surface creation. -/
def PixelRenderer.withOptions (o : RenderOptions) : PixelRenderer :=
  ⟨o, true⟩

/-- A native window handle: stable id plus current physical size
(reported on demand; may transiently be zero mid-resize). -/
structure Window where
  id : ℕ
  width : ℤ
  height : ℤ
deriving DecidableEq

/-- Modelled from the spec: the state of the shared RenderSurface arena —
the map (here a duplicate-free list) from window identity to a live
presentation connection, event counters for surface creations, creation
failures and presented frames, and the platform's finite client-slot
quota.  At most one live surface exists per window. -/
structure SurfaceArena where
  surfaces : List ℕ
  creationEvents : ℕ
  creationFailures : ℕ
  presentCount : ℕ
  clientQuota : ℕ
deriving DecidableEq

/-- The arena before any surface has ever been created, on a platform
with client-slot quota `q`. -/
def emptyArena (q : ℕ) : SurfaceArena :=
  ⟨[], 0, 0, 0, q⟩

/-- Modelled from the spec: `RenderSurface.acquire` — return the existing
surface for the window if one is live; otherwise create one, which
consumes a client slot and fails when the quota is exhausted.  Returns
the updated arena and whether a live surface is now held. -/
def acquire (w : ℕ) (s : SurfaceArena) : SurfaceArena × Bool :=
  if w ∈ s.surfaces then
    (s, true)
  else if s.surfaces.length < s.clientQuota then
    ({ s with surfaces := w :: s.surfaces,
              creationEvents := s.creationEvents + 1 }, true)
  else
    ({ s with creationFailures := s.creationFailures + 1 }, false)

/-- Error kinds of the core (§7 of the specification). -/
inductive RenderError where
  | SizeMismatch
  | InvalidDimensions
  | SurfaceCreationFailed
deriving DecidableEq

/-- Outcome of one render call: the frame was presented, the frame was
skipped (no-render, not an error), or a typed error occurred. -/
inductive RenderResult where
  | presented
  | skipped
  | failed (e : RenderError)
deriving DecidableEq

/-- True exactly on the error outcome. -/
def RenderResult.isError : RenderResult → Bool
  | RenderResult.failed _ => true
  | _ => false

/-- Modelled from the spec: `render(window, buffer)` of the PixelRenderer
facade.  Validates the buffer byte length against
`bufferWidth * bufferHeight * 4` (on mismatch: `SizeMismatch`, no state
change, no partial write); asks the ScalingEngine for the Transform using
the window's current physical size (no Transform: frame skipped, no
error); acquires the shared surface for the window from the arena and
presents through it.  Buffers are abstracted by their byte length, which
is all validation inspects. -/
def render (r : PixelRenderer) (win : Window) (bufLen : ℕ)
    (s : SurfaceArena) : SurfaceArena × RenderResult :=
  if bufLen ≠ r.options.bufferWidth * r.options.bufferHeight * 4 then
    (s, RenderResult.failed RenderError.SizeMismatch)
  else
    match computeTransform r.options.scaleMode r.autoScaleEnabled
        (r.options.bufferWidth : ℤ) (r.options.bufferHeight : ℤ)
        win.width win.height with
    | Option.none => (s, RenderResult.skipped)
    | some _ =>
        match acquire win.id s with
        | (s', true) =>
            ({ s' with presentCount := s'.presentCount + 1 },
             RenderResult.presented)
        | (s', false) =>
            (s', RenderResult.failed RenderError.SurfaceCreationFailed)

/-- Render `n` sequential frames through one facade to one window,
threading the arena; also counts how many of the calls ended in error. -/
def runFrames (r : PixelRenderer) (win : Window) (bufLen : ℕ) :
    ℕ → SurfaceArena → SurfaceArena × ℕ
  | 0, s => (s, 0)
  | n + 1, s =>
      let step := render r win bufLen s
      let rest := runFrames r win bufLen n step.1
      (rest.1, rest.2 + (if step.2.isError then 1 else 0))

/-- Render `framesEach` frames from each facade in the list, in order,
against the same window, threading the arena; sums the error counts. -/
def runRenderers (win : Window) (bufLen : ℕ) (framesEach : ℕ) :
    List PixelRenderer → SurfaceArena → SurfaceArena × ℕ
  | [], s => (s, 0)
  | r :: rs, s =>
      let first := runFrames r win bufLen framesEach s
      let rest := runRenderers win bufLen framesEach rs first.1
      (rest.1, first.2 + rest.2)

/-- EventLoop error kinds (§4.1, §7). -/
inductive LoopError where
  | SingleInstanceViolation
deriving DecidableEq

/-- Modelled from the spec: process-wide EventLoop bookkeeping on a
backend whose event system is a hard singleton — the list of live
EventLoop instance ids and the next fresh id. -/
structure LoopState where
  instances : List ℕ
  nextId : ℕ
deriving DecidableEq

/-- Modelled from the spec: constructing an EventLoop.  On the singleton
backend a second construction fails with `SingleInstanceViolation` and
changes nothing: the existing instance stays registered and usable. -/
def constructEventLoop (s : LoopState) :
    LoopState × Except LoopError ℕ :=
  match s.instances with
  | [] => (⟨[s.nextId], s.nextId + 1⟩, Except.ok s.nextId)
  | _ :: _ => (s, Except.error LoopError.SingleInstanceViolation)

/-- Modelled from the spec and the test helper `getOrCreateEventLoop`:
try to construct an EventLoop; when that fails with
`SingleInstanceViolation`, catch the error and reuse the existing
instance instead of crashing. -/
def getOrCreateEventLoop (s : LoopState) :
    LoopState × Except LoopError ℕ :=
  match constructEventLoop s with
  | (s', Except.ok i) => (s', Except.ok i)
  | (_, Except.error LoopError.SingleInstanceViolation) =>
      match s.instances with
      | i :: _ => (s, Except.ok i)
      | [] => (s, Except.error LoopError.SingleInstanceViolation)

/-- Combined system state: the shared surface arena plus the facades the
application has constructed so far. -/
structure SysState where
  arena : SurfaceArena
  renderers : List PixelRenderer
deriving DecidableEq

/-- Construct a batch of PixelRenderer facades via
`PixelRenderer.withOptions` and register them; the arena is not an input
of any construction, so no surface is created and no window is bound. -/
def constructRenderers (opts : List RenderOptions) (st : SysState) :
    SysState :=
  { st with renderers := st.renderers ++ opts.map PixelRenderer.withOptions }

/-- A facade/buffer pair is valid when the configured logical dimensions
are positive and the buffer byte length is exactly `width * height * 4`. -/
def validFor (r : PixelRenderer) (bufLen : ℕ) : Prop :=
  0 < r.options.bufferWidth ∧ 0 < r.options.bufferHeight ∧
    bufLen = r.options.bufferWidth * r.options.bufferHeight * 4

instance (r : PixelRenderer) (bufLen : ℕ) : Decidable (validFor r bufLen) := by
  unfold validFor; infer_instance

/-- Invariant of the arena while a single window `wid` is being rendered
to, starting from an arena that never held a surface: the quota is `q`,
no creation ever failed, and either no surface exists yet (zero creation
events) or exactly the one surface for `wid` exists (one creation
event). -/
def OneWindowInv (wid q : ℕ) (s : SurfaceArena) : Prop :=
  s.clientQuota = q ∧ s.creationFailures = 0 ∧
    ((s.surfaces = [] ∧ s.creationEvents = 0) ∨
     (s.surfaces = [wid] ∧ s.creationEvents = 1))

theorem computeTransform_pos_guard {bw bh ww wh : ℤ} (hbw : 0 < bw)
    (hbh : 0 < bh) (hww : 0 < ww) (hwh : 0 < wh) :
    ¬(bw ≤ 0 ∨ bh ≤ 0 ∨ ww ≤ 0 ∨ wh ≤ 0) := by
  push_neg
  exact ⟨hbw, hbh, hww, hwh⟩

/-- Claim C7: for every configured scale mode and all buffer and window sizes,
with `autoScaleEnabled = false` the computed Transform is identical to
the Transform that mode None produces for the same inputs. -/
theorem autoScale_off_matches_mode_None (mode : ScaleMode)
    (bw bh ww wh : ℤ) :
    computeTransform mode false bw bh ww wh =
      computeTransform ScaleMode.None true bw bh ww wh := rfl

/-- Claim C8: for every scale mode, a non-positive logical buffer dimension or
window dimension at render time yields a no-render: the Transform is
`Option.none`, and a render call whose buffer passed validation skips the
frame — the arena is untouched, no error is raised and no present
occurs. -/
theorem nonpositive_dims_skip_render (r : PixelRenderer) (win : Window)
    (bufLen : ℕ) (s : SurfaceArena)
    (hdim : (r.options.bufferWidth : ℤ) ≤ 0 ∨
      (r.options.bufferHeight : ℤ) ≤ 0 ∨ win.width ≤ 0 ∨ win.height ≤ 0)
    (hbuf : bufLen = r.options.bufferWidth * r.options.bufferHeight * 4) :
    computeTransform r.options.scaleMode r.autoScaleEnabled
        (r.options.bufferWidth : ℤ) (r.options.bufferHeight : ℤ)
        win.width win.height = Option.none ∧
      render r win bufLen s = (s, RenderResult.skipped) := by
  have ht : computeTransform r.options.scaleMode r.autoScaleEnabled
      (r.options.bufferWidth : ℤ) (r.options.bufferHeight : ℤ)
      win.width win.height = Option.none := by
    unfold computeTransform
    rw [if_pos hdim]
  refine ⟨ht, ?_⟩
  unfold render
  rw [if_neg (by simp [hbuf]), ht]

/-- Witness for `nonpositive_dims_skip_render` at a window that
transiently reports zero height. -/
theorem nonpositive_dims_skip_render_witness :
    ((((PixelRenderer.withOptions
        ⟨640, 480, ScaleMode.Fit, (0, 0, 0, 255)⟩).options.bufferWidth : ℤ)) ≤ 0 ∨
      (((PixelRenderer.withOptions
        ⟨640, 480, ScaleMode.Fit, (0, 0, 0, 255)⟩).options.bufferHeight : ℤ)) ≤ 0 ∨
      (Window.mk 3 800 0).width ≤ 0 ∨ (Window.mk 3 800 0).height ≤ 0) ∧
    render (PixelRenderer.withOptions ⟨640, 480, ScaleMode.Fit, (0, 0, 0, 255)⟩)
        (Window.mk 3 800 0) 1228800 (emptyArena 1) =
      (emptyArena 1, RenderResult.skipped) :=
  ⟨by decide,
   (nonpositive_dims_skip_render
      (PixelRenderer.withOptions ⟨640, 480, ScaleMode.Fit, (0, 0, 0, 255)⟩)
      (Window.mk 3 800 0) 1228800 (emptyArena 1)
      (by decide) (by decide)).2⟩

/-- Claim C4, counterexample: at `bufferWidth = 640`, `bufferHeight = 480`,
window `800 × 600`, Fit mode yields `destRect = {x:0, y:0, w:800, h:600}`
(scale factor `5/4` applied uniformly to both axes), not the claimed
`{x:0, y:60, w:800, h:480}` — the claimed rectangle is not even uniformly
scaled from `640 × 480`. -/
theorem fit_scenario_destRect_refuted :
    (computeTransform ScaleMode.Fit true 640 480 800 600).map
        Transform.destRect = some ⟨0, 0, 800, 600⟩ ∧
      (Rect.mk 0 0 800 600 : Rect) ≠ Rect.mk 0 60 800 480 := by
  constructor
  · simp only [computeTransform, centeredRect, winRect]
    norm_num [min_def]
  · simp only [ne_eq, Rect.mk.injEq]
    norm_num

/-- Claim C4, amended: in Fit mode, for all positive buffer and window sizes,
the engine uses the uniform factor `min (ww / bw) (wh / bh)`, the centered
destination rectangle preserves the buffer aspect exactly
(`destRect.w / destRect.h = bw / bh`), and in particular buffer `640 × 480`
with window `800 × 600` yields scale factor `5/4 = 1.25` and
`destRect = {x:0, y:0, w:800, h:600}`. -/
theorem fit_transform_characterization (bw bh ww wh : ℤ)
    (hbw : 0 < bw) (hbh : 0 < bh) (hww : 0 < ww) (hwh : 0 < wh) :
    (∃ f : ℚ, f = min ((ww : ℚ) / (bw : ℚ)) ((wh : ℚ) / (bh : ℚ)) ∧
      computeTransform ScaleMode.Fit true bw bh ww wh =
        some ⟨centeredRect ((bw : ℚ) * f) ((bh : ℚ) * f) (ww : ℚ) (wh : ℚ),
              some f, winRect (ww : ℚ) (wh : ℚ)⟩ ∧
      ((bw : ℚ) * f) / ((bh : ℚ) * f) = (bw : ℚ) / (bh : ℚ)) ∧
    computeTransform ScaleMode.Fit true 640 480 800 600 =
      some ⟨⟨0, 0, 800, 600⟩, some (5 / 4), ⟨0, 0, 800, 600⟩⟩ := by
  constructor
  · refine ⟨min ((ww : ℚ) / (bw : ℚ)) ((wh : ℚ) / (bh : ℚ)), rfl, ?_, ?_⟩
    · unfold computeTransform
      rw [if_neg (computeTransform_pos_guard hbw hbh hww hwh)]
      rfl
    · have hbw' : (0 : ℚ) < (bw : ℚ) := by exact_mod_cast hbw
      have hbh' : (0 : ℚ) < (bh : ℚ) := by exact_mod_cast hbh
      have hww' : (0 : ℚ) < (ww : ℚ) := by exact_mod_cast hww
      have hwh' : (0 : ℚ) < (wh : ℚ) := by exact_mod_cast hwh
      have hfpos : 0 < min ((ww : ℚ) / (bw : ℚ)) ((wh : ℚ) / (bh : ℚ)) :=
        lt_min (div_pos hww' hbw') (div_pos hwh' hbh')
      rw [mul_div_mul_right _ _ hfpos.ne']
  · simp only [computeTransform, centeredRect, winRect]
    norm_num [min_def]

/-- Witness for `fit_transform_characterization` at buffer `640 × 480`
and window `800 × 600`. -/
theorem fit_transform_characterization_witness :
    (0 : ℤ) < 640 ∧ (0 : ℤ) < 480 ∧ (0 : ℤ) < 800 ∧ (0 : ℤ) < 600 ∧
    ((∃ f : ℚ, f = min ((800 : ℚ) / ((640 : ℤ) : ℚ)) ((600 : ℚ) / ((480 : ℤ) : ℚ)) ∧
      computeTransform ScaleMode.Fit true 640 480 800 600 =
        some ⟨centeredRect (((640 : ℤ) : ℚ) * f) (((480 : ℤ) : ℚ) * f)
                (((800 : ℤ) : ℚ)) (((600 : ℤ) : ℚ)),
              some f, winRect (((800 : ℤ) : ℚ)) (((600 : ℤ) : ℚ))⟩ ∧
      (((640 : ℤ) : ℚ) * f) / (((480 : ℤ) : ℚ) * f) =
        ((640 : ℤ) : ℚ) / ((480 : ℤ) : ℚ)) ∧
    computeTransform ScaleMode.Fit true 640 480 800 600 =
      some ⟨⟨0, 0, 800, 600⟩, some (5 / 4), ⟨0, 0, 800, 600⟩⟩) :=
  ⟨by norm_num, by norm_num, by norm_num, by norm_num,
   fit_transform_characterization 640 480 800 600
     (by norm_num) (by norm_num) (by norm_num) (by norm_num)⟩

/-- Claim C5: in Integer mode, for all positive buffer and window sizes, the
factor is `max 1 ⌊min (ww / bw) (wh / bh)⌋`, an integer `≥ 1`; the
destination `{bw * factor, bh * factor}` is centered; and in particular
buffer `640 × 480` with window `800 × 600` yields scale factor `1` and
`destRect = {x:80, y:60, w:640, h:480}`. -/
theorem integer_transform_characterization (bw bh ww wh : ℤ)
    (hbw : 0 < bw) (hbh : 0 < bh) (hww : 0 < ww) (hwh : 0 < wh) :
    (∃ k : ℤ,
      k = max 1 (Int.floor (min ((ww : ℚ) / (bw : ℚ)) ((wh : ℚ) / (bh : ℚ)))) ∧
      1 ≤ k ∧
      computeTransform ScaleMode.Integer true bw bh ww wh =
        some ⟨centeredRect ((bw : ℚ) * (k : ℚ)) ((bh : ℚ) * (k : ℚ))
                (ww : ℚ) (wh : ℚ),
              some (k : ℚ), winRect (ww : ℚ) (wh : ℚ)⟩) ∧
    computeTransform ScaleMode.Integer true 640 480 800 600 =
      some ⟨⟨80, 60, 640, 480⟩, some 1, ⟨0, 0, 800, 600⟩⟩ := by
  constructor
  · refine ⟨max 1 (Int.floor (min ((ww : ℚ) / (bw : ℚ)) ((wh : ℚ) / (bh : ℚ)))),
      rfl, le_max_left _ _, ?_⟩
    unfold computeTransform
    rw [if_neg (computeTransform_pos_guard hbw hbh hww hwh)]
    rfl
  · simp only [computeTransform, centeredRect, winRect]
    norm_num [min_def]

/-- Witness for `integer_transform_characterization` at buffer `640 × 480`
and window `800 × 600`. -/
theorem integer_transform_characterization_witness :
    (0 : ℤ) < 640 ∧ (0 : ℤ) < 480 ∧ (0 : ℤ) < 800 ∧ (0 : ℤ) < 600 ∧
    computeTransform ScaleMode.Integer true 640 480 800 600 =
      some ⟨⟨80, 60, 640, 480⟩, some 1, ⟨0, 0, 800, 600⟩⟩ :=
  ⟨by norm_num, by norm_num, by norm_num, by norm_num,
   (integer_transform_characterization 640 480 800 600
     (by norm_num) (by norm_num) (by norm_num) (by norm_num)).2⟩

/-- Claim C6: in Fill mode, for all positive buffer and window sizes, the
uniform factor is `max (ww / bw) (wh / bh)` and the destination, cropped
to the window bounds, is exactly the full window rectangle — no
background is ever visible. -/
theorem fill_transform_covers_window (bw bh ww wh : ℤ)
    (hbw : 0 < bw) (hbh : 0 < bh) (hww : 0 < ww) (hwh : 0 < wh) :
    ∃ t : Transform,
      computeTransform ScaleMode.Fill true bw bh ww wh = some t ∧
      t.scaleFactor = some (max ((ww : ℚ) / (bw : ℚ)) ((wh : ℚ) / (bh : ℚ))) ∧
      intersectRect t.destRect (winRect (ww : ℚ) (wh : ℚ)) =
        winRect (ww : ℚ) (wh : ℚ) := by
  have hbw' : (0 : ℚ) < (bw : ℚ) := by exact_mod_cast hbw
  have hbh' : (0 : ℚ) < (bh : ℚ) := by exact_mod_cast hbh
  have hww' : (0 : ℚ) < (ww : ℚ) := by exact_mod_cast hww
  have hwh' : (0 : ℚ) < (wh : ℚ) := by exact_mod_cast hwh
  set f : ℚ := max ((ww : ℚ) / (bw : ℚ)) ((wh : ℚ) / (bh : ℚ)) with hf
  have hcoverw : (ww : ℚ) ≤ (bw : ℚ) * f := by
    have h1 : (ww : ℚ) / (bw : ℚ) ≤ f := le_max_left _ _
    calc (ww : ℚ) = (bw : ℚ) * ((ww : ℚ) / (bw : ℚ)) := by
          field_simp
      _ ≤ (bw : ℚ) * f := by
          exact mul_le_mul_of_nonneg_left h1 hbw'.le
  have hcoverh : (wh : ℚ) ≤ (bh : ℚ) * f := by
    have h2 : (wh : ℚ) / (bh : ℚ) ≤ f := le_max_right _ _
    calc (wh : ℚ) = (bh : ℚ) * ((wh : ℚ) / (bh : ℚ)) := by
          field_simp
      _ ≤ (bh : ℚ) * f := by
          exact mul_le_mul_of_nonneg_left h2 hbh'.le
  refine ⟨⟨centeredRect ((bw : ℚ) * f) ((bh : ℚ) * f) (ww : ℚ) (wh : ℚ),
           some f, winRect (ww : ℚ) (wh : ℚ)⟩, ?_, rfl, ?_⟩
  · unfold computeTransform
    rw [if_neg (computeTransform_pos_guard hbw hbh hww hwh)]
    rfl
  · simp only [intersectRect, centeredRect, winRect, Rect.mk.injEq]
    have ex : max (((ww : ℚ) - (bw : ℚ) * f) / 2) 0 = 0 :=
      max_eq_right (by linarith)
    have ey : max (((wh : ℚ) - (bh : ℚ) * f) / 2) 0 = 0 :=
      max_eq_right (by linarith)
    have ex2 : min (((ww : ℚ) - (bw : ℚ) * f) / 2 + (bw : ℚ) * f)
        (0 + (ww : ℚ)) = 0 + (ww : ℚ) :=
      min_eq_right (by linarith)
    have ey2 : min (((wh : ℚ) - (bh : ℚ) * f) / 2 + (bh : ℚ) * f)
        (0 + (wh : ℚ)) = 0 + (wh : ℚ) :=
      min_eq_right (by linarith)
    rw [ex, ey, ex2, ey2]
    norm_num

/-- Witness for `fill_transform_covers_window` at buffer `640 × 480` and
window `1024 × 600`. -/
theorem fill_transform_covers_window_witness :
    (0 : ℤ) < 640 ∧ (0 : ℤ) < 480 ∧ (0 : ℤ) < 1024 ∧ (0 : ℤ) < 600 ∧
    (∃ t : Transform,
      computeTransform ScaleMode.Fill true 640 480 1024 600 = some t ∧
      t.scaleFactor =
        some (max (((1024 : ℤ) : ℚ) / ((640 : ℤ) : ℚ))
                  (((600 : ℤ) : ℚ) / ((480 : ℤ) : ℚ))) ∧
      intersectRect t.destRect (winRect (((1024 : ℤ) : ℚ)) (((600 : ℤ) : ℚ))) =
        winRect (((1024 : ℤ) : ℚ)) (((600 : ℤ) : ℚ))) :=
  ⟨by norm_num, by norm_num, by norm_num, by norm_num,
   fill_transform_covers_window 640 480 1024 600
     (by norm_num) (by norm_num) (by norm_num) (by norm_num)⟩

theorem computeTransform_isSome (mode : ScaleMode) (a : Bool)
    {bw bh ww wh : ℤ} (hbw : 0 < bw) (hbh : 0 < bh) (hww : 0 < ww)
    (hwh : 0 < wh) :
    (computeTransform mode a bw bh ww wh).isSome := by
  unfold computeTransform
  rw [if_neg (computeTransform_pos_guard hbw hbh hww hwh)]
  cases hm : (if a then mode else ScaleMode.None) <;> simp

theorem render_mem (r : PixelRenderer) (win : Window) (bufLen : ℕ)
    (s : SurfaceArena) (hv : validFor r bufLen) (hww : 0 < win.width)
    (hwh : 0 < win.height) (hmem : win.id ∈ s.surfaces) :
    render r win bufLen s =
      ({ s with presentCount := s.presentCount + 1 },
       RenderResult.presented) := by
  obtain ⟨hbw, hbh, hbuf⟩ := hv
  have hbw' : (0 : ℤ) < (r.options.bufferWidth : ℤ) := by exact_mod_cast hbw
  have hbh' : (0 : ℤ) < (r.options.bufferHeight : ℤ) := by exact_mod_cast hbh
  have hsome := computeTransform_isSome r.options.scaleMode
    r.autoScaleEnabled hbw' hbh' hww hwh
  obtain ⟨t, ht⟩ := Option.isSome_iff_exists.mp hsome
  unfold render
  rw [if_neg (by simp [hbuf]), ht]
  have hacq : acquire win.id s = (s, true) := by
    unfold acquire
    rw [if_pos hmem]
  rw [hacq]

theorem render_new (r : PixelRenderer) (win : Window) (bufLen : ℕ)
    (s : SurfaceArena) (hv : validFor r bufLen) (hww : 0 < win.width)
    (hwh : 0 < win.height) (hnot : win.id ∉ s.surfaces)
    (hroom : s.surfaces.length < s.clientQuota) :
    render r win bufLen s =
      ({ s with surfaces := win.id :: s.surfaces,
                creationEvents := s.creationEvents + 1,
                presentCount := s.presentCount + 1 },
       RenderResult.presented) := by
  obtain ⟨hbw, hbh, hbuf⟩ := hv
  have hbw' : (0 : ℤ) < (r.options.bufferWidth : ℤ) := by exact_mod_cast hbw
  have hbh' : (0 : ℤ) < (r.options.bufferHeight : ℤ) := by exact_mod_cast hbh
  have hsome := computeTransform_isSome r.options.scaleMode
    r.autoScaleEnabled hbw' hbh' hww hwh
  obtain ⟨t, ht⟩ := Option.isSome_iff_exists.mp hsome
  unfold render
  rw [if_neg (by simp [hbuf]), ht]
  have hacq : acquire win.id s =
      ({ s with surfaces := win.id :: s.surfaces,
                creationEvents := s.creationEvents + 1 }, true) := by
    unfold acquire
    rw [if_neg hnot, if_pos hroom]
  rw [hacq]

theorem runFrames_mem (r : PixelRenderer) (win : Window) (bufLen : ℕ)
    (hv : validFor r bufLen) (hww : 0 < win.width) (hwh : 0 < win.height) :
    ∀ (n : ℕ) (s : SurfaceArena), win.id ∈ s.surfaces →
      runFrames r win bufLen n s =
        ({ s with presentCount := s.presentCount + n }, 0) := by
  intro n
  induction n with
  | zero => intro s _; rfl
  | succ n ih =>
      intro s hmem
      have hstep := render_mem r win bufLen s hv hww hwh hmem
      have hrest := ih { s with presentCount := s.presentCount + 1 } hmem
      simp only [runFrames, hstep, hrest, RenderResult.isError]
      simp only [Prod.mk.injEq, SurfaceArena.mk.injEq, Bool.false_eq_true,
        if_false, Nat.add_zero, true_and, and_true]
      omega

theorem runFrames_new (r : PixelRenderer) (win : Window) (bufLen n : ℕ)
    (s : SurfaceArena) (hv : validFor r bufLen) (hww : 0 < win.width)
    (hwh : 0 < win.height) (hn : 1 ≤ n) (hnot : win.id ∉ s.surfaces)
    (hroom : s.surfaces.length < s.clientQuota) :
    runFrames r win bufLen n s =
      ({ s with surfaces := win.id :: s.surfaces,
                creationEvents := s.creationEvents + 1,
                presentCount := s.presentCount + n }, 0) := by
  obtain ⟨m, rfl⟩ : ∃ m, n = m + 1 := ⟨n - 1, by omega⟩
  have hstep := render_new r win bufLen s hv hww hwh hnot hroom
  have hrest := runFrames_mem r win bufLen hv hww hwh m
    { s with surfaces := win.id :: s.surfaces,
             creationEvents := s.creationEvents + 1,
             presentCount := s.presentCount + 1 }
    (by simp)
  simp only [runFrames, hstep, hrest, RenderResult.isError]
  simp only [Prod.mk.injEq, SurfaceArena.mk.injEq, Bool.false_eq_true,
    if_false, Nat.add_zero, true_and, and_true]
  omega

theorem runRenderers_mem (win : Window) (bufLen k : ℕ)
    (hww : 0 < win.width) (hwh : 0 < win.height) :
    ∀ (rs : List PixelRenderer) (s : SurfaceArena),
      (∀ r ∈ rs, validFor r bufLen) → win.id ∈ s.surfaces →
      runRenderers win bufLen k rs s =
        ({ s with presentCount := s.presentCount + rs.length * k }, 0) := by
  intro rs
  induction rs with
  | nil =>
      intro s _ _
      simp only [runRenderers, List.length_nil, Nat.zero_mul, Nat.add_zero]
  | cons r rs ih =>
      intro s hv hmem
      have hfirst := runFrames_mem r win bufLen (hv r (by simp)) hww hwh k s
        hmem
      have hrest := ih { s with presentCount := s.presentCount + k }
        (fun r' hr' => hv r' (by simp [hr'])) hmem
      simp only [runRenderers, hfirst, hrest, List.length_cons]
      simp only [Prod.mk.injEq, SurfaceArena.mk.injEq, Nat.add_zero,
        true_and, and_true]
      ring

theorem acquire_inv {wid q : ℕ} {s : SurfaceArena} (hq : 1 ≤ q)
    (h : OneWindowInv wid q s) :
    OneWindowInv wid q (acquire wid s).1 ∧ (acquire wid s).2 = true := by
  obtain ⟨hquota, hfail, hcases⟩ := h
  rcases hcases with ⟨hs, hc⟩ | ⟨hs, hc⟩
  · have hnot : wid ∉ s.surfaces := by simp [hs]
    have hroom : s.surfaces.length < s.clientQuota := by
      rw [hs, hquota]
      simpa using hq
    unfold acquire
    rw [if_neg hnot, if_pos hroom]
    exact ⟨⟨hquota, hfail, Or.inr ⟨by simp [hs], by simp [hc]⟩⟩, rfl⟩
  · have hmem : wid ∈ s.surfaces := by simp [hs]
    unfold acquire
    rw [if_pos hmem]
    exact ⟨⟨hquota, hfail, Or.inr ⟨hs, hc⟩⟩, rfl⟩

theorem render_preserves_inv (r : PixelRenderer) (win : Window)
    (bufLen : ℕ) {q : ℕ} {s : SurfaceArena} (hq : 1 ≤ q)
    (h : OneWindowInv win.id q s) :
    OneWindowInv win.id q (render r win bufLen s).1 := by
  unfold render
  by_cases hbl : bufLen ≠ r.options.bufferWidth * r.options.bufferHeight * 4
  · rw [if_pos hbl]
    exact h
  · rw [if_neg hbl]
    rcases hct : computeTransform r.options.scaleMode r.autoScaleEnabled
        (r.options.bufferWidth : ℤ) (r.options.bufferHeight : ℤ)
        win.width win.height with _ | t
    · exact h
    · have hacq := acquire_inv hq h
      rcases hacqeq : acquire win.id s with ⟨s', b⟩
      rw [hacqeq] at hacq
      cases b
      · exact absurd hacq.2 (by simp)
      · exact hacq.1

theorem runFrames_preserves_inv (r : PixelRenderer) (win : Window)
    (bufLen : ℕ) {q : ℕ} (hq : 1 ≤ q) :
    ∀ (n : ℕ) (s : SurfaceArena), OneWindowInv win.id q s →
      OneWindowInv win.id q (runFrames r win bufLen n s).1 := by
  intro n
  induction n with
  | zero => intro s h; exact h
  | succ n ih =>
      intro s h
      exact ih (render r win bufLen s).1
        (render_preserves_inv r win bufLen hq h)

/-- Claim C1: rendering any number of sequential frames (any buffer, any
window) through the shared-surface arena, starting from an arena that
never held a surface, performs at most one surface-creation event and
zero `SurfaceCreationFailed` errors: surface creation is idempotent per
window, never per frame. -/
theorem single_window_at_most_one_creation (r : PixelRenderer)
    (win : Window) (bufLen n q : ℕ) (hq : 1 ≤ q) :
    (runFrames r win bufLen n (emptyArena q)).1.creationEvents ≤ 1 ∧
    (runFrames r win bufLen n (emptyArena q)).1.creationFailures = 0 := by
  have h0 : OneWindowInv win.id q (emptyArena q) :=
    ⟨rfl, rfl, Or.inl ⟨rfl, rfl⟩⟩
  obtain ⟨-, hfail, hcases⟩ :=
    runFrames_preserves_inv r win bufLen hq n (emptyArena q) h0
  refine ⟨?_, hfail⟩
  rcases hcases with ⟨-, hc⟩ | ⟨-, hc⟩ <;> omega

/-- Witness for `single_window_at_most_one_creation`: 10,000 frames of a
1920×1080 buffer to one window on a backend with a single free client
slot. -/
theorem single_window_at_most_one_creation_witness :
    1 ≤ 1 ∧
    ((runFrames
        (PixelRenderer.withOptions ⟨1920, 1080, ScaleMode.Fit, (0, 0, 0, 255)⟩)
        (Window.mk 0 960 540) 8294400 10000 (emptyArena 1)).1.creationEvents ≤ 1 ∧
     (runFrames
        (PixelRenderer.withOptions ⟨1920, 1080, ScaleMode.Fit, (0, 0, 0, 255)⟩)
        (Window.mk 0 960 540) 8294400 10000 (emptyArena 1)).1.creationFailures = 0) :=
  ⟨le_refl 1,
   single_window_at_most_one_creation
     (PixelRenderer.withOptions ⟨1920, 1080, ScaleMode.Fit, (0, 0, 0, 255)⟩)
     (Window.mk 0 960 540) 8294400 10000 1 (le_refl 1)⟩

/-- Claim C2: any number of independent PixelRenderer facades targeting the
same window, each rendering any positive number of frames with valid
buffers, produce zero errors and exactly one underlying surface-creation
event — all facades acquire the one shared surface keyed by window
identity. -/
theorem shared_surface_across_renderers (rs : List PixelRenderer)
    (win : Window) (bufLen k q : ℕ) (hrs : rs ≠ []) (hk : 1 ≤ k)
    (hq : 1 ≤ q) (hv : ∀ r ∈ rs, validFor r bufLen)
    (hww : 0 < win.width) (hwh : 0 < win.height) :
    (runRenderers win bufLen k rs (emptyArena q)).1.creationEvents = 1 ∧
    (runRenderers win bufLen k rs (emptyArena q)).2 = 0 := by
  match rs, hrs with
  | r :: rs', _ =>
    have hfirst := runFrames_new r win bufLen k (emptyArena q)
      (hv r (by simp)) hww hwh hk (by simp [emptyArena])
      (by simpa [emptyArena] using hq)
    simp only [emptyArena, Nat.zero_add] at hfirst
    have hrest := runRenderers_mem win bufLen k hww hwh rs'
      (SurfaceArena.mk [win.id] 1 0 k q)
      (fun r' hr' => hv r' (by simp [hr'])) (by simp)
    simp [runRenderers, emptyArena, hfirst, hrest]

/-- Witness for `shared_surface_across_renderers`: 10 facades, 30 frames
each, one 800×600 window, a single free client slot. -/
theorem shared_surface_across_renderers_witness :
    List.replicate 10 (PixelRenderer.withOptions
        ⟨800, 600, ScaleMode.Fit, (0, 0, 0, 255)⟩) ≠ [] ∧
    (1 : ℕ) ≤ 30 ∧ (1 : ℕ) ≤ 1 ∧
    (∀ r ∈ List.replicate 10 (PixelRenderer.withOptions
        ⟨800, 600, ScaleMode.Fit, (0, 0, 0, 255)⟩), validFor r 1920000) ∧
    ((runRenderers (Window.mk 1 800 600) 1920000 30
        (List.replicate 10 (PixelRenderer.withOptions
          ⟨800, 600, ScaleMode.Fit, (0, 0, 0, 255)⟩))
        (emptyArena 1)).1.creationEvents = 1 ∧
     (runRenderers (Window.mk 1 800 600) 1920000 30
        (List.replicate 10 (PixelRenderer.withOptions
          ⟨800, 600, ScaleMode.Fit, (0, 0, 0, 255)⟩))
        (emptyArena 1)).2 = 0) :=
  ⟨by decide, by decide, by decide, by decide,
   shared_surface_across_renderers
     (List.replicate 10 (PixelRenderer.withOptions
       ⟨800, 600, ScaleMode.Fit, (0, 0, 0, 255)⟩))
     (Window.mk 1 800 600) 1920000 30 1
     (by decide) (by decide) (by decide) (by decide)
     (by decide) (by decide)⟩

/-- Claim C3: with positive configured dimensions, `render` accepts exactly the
buffers whose byte length equals `bufferWidth * bufferHeight * 4`; any
other length fails with `SizeMismatch` and leaves the arena untouched
(state unchanged on error, no partial write); a matching length never
produces `SizeMismatch`. -/
theorem render_size_validation (r : PixelRenderer) (win : Window)
    (bufLen : ℕ) (s : SurfaceArena)
    (hbw : 0 < r.options.bufferWidth) (hbh : 0 < r.options.bufferHeight) :
    (bufLen ≠ r.options.bufferWidth * r.options.bufferHeight * 4 →
      render r win bufLen s =
        (s, RenderResult.failed RenderError.SizeMismatch)) ∧
    (bufLen = r.options.bufferWidth * r.options.bufferHeight * 4 →
      (render r win bufLen s).2 ≠
        RenderResult.failed RenderError.SizeMismatch) := by
  constructor
  · intro hne
    unfold render
    rw [if_pos hne]
  · intro heq
    unfold render
    rw [if_neg (by simp [heq])]
    rcases hct : computeTransform r.options.scaleMode r.autoScaleEnabled
        (r.options.bufferWidth : ℤ) (r.options.bufferHeight : ℤ)
        win.width win.height with _ | t
    · simp
    · rcases hacq : acquire win.id s with ⟨s', b⟩
      cases b <;> simp

/-- Witness for `render_size_validation`: a 2×2 facade, a 17-byte buffer
(rejected with `SizeMismatch`, arena untouched) versus the 16-byte buffer
(never `SizeMismatch`). -/
theorem render_size_validation_witness :
    0 < (PixelRenderer.withOptions
        ⟨2, 2, ScaleMode.Fit, (0, 0, 0, 255)⟩).options.bufferWidth ∧
    0 < (PixelRenderer.withOptions
        ⟨2, 2, ScaleMode.Fit, (0, 0, 0, 255)⟩).options.bufferHeight ∧
    render (PixelRenderer.withOptions ⟨2, 2, ScaleMode.Fit, (0, 0, 0, 255)⟩)
        (Window.mk 4 800 600) 17 (emptyArena 1) =
      (emptyArena 1, RenderResult.failed RenderError.SizeMismatch) :=
  ⟨by decide, by decide,
   (render_size_validation
      (PixelRenderer.withOptions ⟨2, 2, ScaleMode.Fit, (0, 0, 0, 255)⟩)
      (Window.mk 4 800 600) 17 (emptyArena 1)
      (by decide) (by decide)).1 (by decide)⟩

/-- Claim C9: on a backend whose event system is a process-wide singleton,
constructing a second EventLoop while one exists fails with
`SingleInstanceViolation` and changes nothing — the existing instance
remains registered and usable — and the catching helper
`getOrCreateEventLoop` recovers by returning the existing instance. -/
theorem second_eventloop_single_instance (ins : List ℕ) (nid i : ℕ)
    (rest : List ℕ) (h : ins = i :: rest) :
    constructEventLoop ⟨ins, nid⟩ =
      (⟨ins, nid⟩, Except.error LoopError.SingleInstanceViolation) ∧
    getOrCreateEventLoop ⟨ins, nid⟩ = (⟨ins, nid⟩, Except.ok i) ∧
    i ∈ (constructEventLoop ⟨ins, nid⟩).1.instances := by
  subst h
  refine ⟨rfl, rfl, ?_⟩
  simp [constructEventLoop]

/-- Witness for `second_eventloop_single_instance`: one EventLoop with
id 7 already exists. -/
theorem second_eventloop_single_instance_witness :
    ([7] : List ℕ) = 7 :: [] ∧
    (constructEventLoop ⟨[7], 8⟩ =
      (⟨[7], 8⟩, Except.error LoopError.SingleInstanceViolation) ∧
    getOrCreateEventLoop ⟨[7], 8⟩ = (⟨[7], 8⟩, Except.ok 7) ∧
    7 ∈ (constructEventLoop ⟨[7], 8⟩).1.instances) :=
  ⟨rfl, second_eventloop_single_instance [7] 8 7 [] rfl⟩

/-- Claim C10: constructing PixelRenderer facades binds no window and creates
no presentation resource — constructing any number of facades leaves the
arena (and its surface-creation count) unchanged — and the target window
is supplied per render call: a facade constructed with no window in sight
successfully renders to an arbitrary, independently created window. -/
theorem renderer_construction_creates_no_surface
    (opts : List RenderOptions) (st : SysState) (o : RenderOptions)
    (win : Window) (bufLen : ℕ)
    (hbw : 0 < o.bufferWidth) (hbh : 0 < o.bufferHeight)
    (hbuf : bufLen = o.bufferWidth * o.bufferHeight * 4)
    (hww : 0 < win.width) (hwh : 0 < win.height) :
    (constructRenderers opts st).arena = st.arena ∧
    (constructRenderers opts st).arena.creationEvents =
      st.arena.creationEvents ∧
    render (PixelRenderer.withOptions o) win bufLen (emptyArena 1) =
      (⟨[win.id], 1, 0, 1, 1⟩, RenderResult.presented) := by
  refine ⟨rfl, rfl, ?_⟩
  exact render_new (PixelRenderer.withOptions o) win bufLen (emptyArena 1)
    ⟨hbw, hbh, hbuf⟩ hww hwh (by simp [emptyArena]) (by simp [emptyArena])

/-- Witness for `renderer_construction_creates_no_surface`: five facades
constructed up front, then one of them renders a 640×480 buffer to a
window created elsewhere. -/
theorem renderer_construction_creates_no_surface_witness :
    0 < (640 : ℕ) ∧ 0 < (480 : ℕ) ∧ (1228800 : ℕ) = 640 * 480 * 4 ∧
    (0 : ℤ) < 800 ∧ (0 : ℤ) < 600 ∧
    render (PixelRenderer.withOptions ⟨640, 480, ScaleMode.Fit, (0, 0, 0, 255)⟩)
        (Window.mk 2 800 600) 1228800 (emptyArena 1) =
      (⟨[(Window.mk 2 800 600).id], 1, 0, 1, 1⟩, RenderResult.presented) :=
  ⟨by decide, by decide, by decide, by decide, by decide,
   (renderer_construction_creates_no_surface
      (List.replicate 5 ⟨640, 480, ScaleMode.Fit, (0, 0, 0, 255)⟩)
      ⟨emptyArena 3, []⟩ ⟨640, 480, ScaleMode.Fit, (0, 0, 0, 255)⟩
      (Window.mk 2 800 600) 1228800
      (by decide) (by decide) (by decide) (by decide) (by decide)).2.2⟩

end WebviewRs
